import Mathlib

/-!
Shallow embedding of the Serenity Student backend core
(`App/backend/server.py`): the sentiment-extraction parser
(`analyze_sentiment`), the journal / chat persistence handlers
(`create_journal_entry`, `chat_with_companion`), and the wellness
analytics endpoint (`get_user_stats`).

Modelling conventions:
- Python floats are modelled as exact rationals (`ℚ`).  Every tie that
  `round(x, 1)` can meet for a mean of at most 10 integer samples has a
  denominator dividing 8, hence is exactly representable in binary
  floating point, so the rational model of the rounding step is faithful.
- The Python string methods `startswith`, `strip`, `lower` and
  `split("\n")` are modelled by structurally recursive functions on the
  character list of the string (`pyStartsWith`, `pyStrip`, `pyLower`,
  `pySplitLines`); `lower` is modelled on the ASCII range, which covers
  every string the parser compares case-insensitively (`"none"`).
- The external language-model gateway call is modelled by an
  `Except Unit String` input: `Except.ok reply` is a successful reply,
  `Except.error ()` stands for any raised exception (timeout, network
  failure, malformed response), which in the Python code lands in the
  top-level `except` block of `analyze_sentiment`.
-/

namespace Serenity

/-- Python `s.startswith(p)`: the characters of `p` are an initial
segment of the characters of `s`. -/
def pyStartsWith (s p : String) : Bool :=
  p.toList.isPrefixOf s.toList

/-- The whitespace characters removed by Python `str.strip()` (ASCII
range): space, tab, newline, carriage return, vertical tab, form feed. -/
def pyWhitespace (c : Char) : Bool :=
  c = ' ' || c = '\t' || c = '\n' || c = '\r' || c = '\x0b' || c = '\x0c'

/-- Python `strip()` on a character list: drop whitespace from both
ends. -/
def pyStripList (l : List Char) : List Char :=
  ((l.dropWhile pyWhitespace).reverse.dropWhile pyWhitespace).reverse

/-- Python `s.strip()`. -/
def pyStrip (s : String) : String :=
  (pyStripList s.toList).asString

/-- Python `lower()` on one character, ASCII range. -/
def pyLowerChar (c : Char) : Char :=
  if 'A' ≤ c && c ≤ 'Z' then Char.ofNat (c.toNat + 32) else c

/-- Python `s.lower()` (ASCII model). -/
def pyLower (s : String) : String :=
  (s.toList.map pyLowerChar).asString

/-- Python `split("\n")` on a character list: the groups between newline
characters, keeping empty groups, `[[]]` on the empty list. -/
def splitOnNl : List Char → List (List Char)
  | [] => [[]]
  | c :: cs =>
    let r := splitOnNl cs
    if c = '\n' then [] :: r
    else
      match r with
      | [] => [[c]]
      | g :: gs => (c :: g) :: gs

/-- Python `s.split("\n")`. -/
def pySplitLines (s : String) : List String :=
  (splitOnNl s.toList).map List.asString

/-- The typed result assembled by `analyze_sentiment`
(server.py lines 132-137): sentiment label, mood score, insight text and
stress-indicator list. -/
structure SentimentResult where
  sentiment : String
  mood_score : ℚ
  insights : String
  stress_indicators : List String
deriving DecidableEq

/-- The running default result that `analyze_sentiment` initialises
before scanning the reply lines (server.py lines 132-137); any field no
recognized line overwrites keeps this value. -/
def parseDefault : SentimentResult where
  sentiment := "neutral"
  mood_score := 5
  insights := "Take care of yourself and remember that it\x27s okay to have ups and downs."
  stress_indicators := []

/-- The result returned from the top-level `except` block of
`analyze_sentiment` (server.py lines 157-162).  Note its insight text
differs from the one in `parseDefault`. -/
def exceptDefault : SentimentResult where
  sentiment := "neutral"
  mood_score := 5
  insights := "Thank you for sharing. Remember to take care of yourself."
  stress_indicators := []

/-- Python `line.split(":", 1)[1]`: everything after the first colon.
The parser only applies it to lines that start with one of the four
recognized labels, all of which contain a colon, so the out-of-range
case of the Python indexing cannot occur there. -/
def afterColon (line : String) : String :=
  ((line.toList.dropWhile (fun c => c ≠ ':')).drop 1).asString

/-- Numeric value of a list of decimal digit characters. -/
def digitsVal (l : List Char) : ℕ :=
  l.foldl (fun a c => 10 * a + (c.toNat - 48)) 0

/-- Split a character list into its longest initial run of decimal
digits and the rest. -/
def spanDigits (cs : List Char) : List Char × List Char :=
  (cs.takeWhile Char.isDigit, cs.dropWhile Char.isDigit)

/-- Consume an optional leading `+` or `-` sign; the flag is true for a
leading minus. -/
def stripSign (cs : List Char) : Bool × List Char :=
  match cs with
  | '-' :: r => (true, r)
  | '+' :: r => (false, r)
  | _ => (false, cs)

/-- After the integer digits: an optional point followed by the
fractional digit run. -/
def splitFrac (r1 : List Char) : List Char × List Char :=
  match r1 with
  | '.' :: rest => spanDigits rest
  | _ => ([], r1)

/-- Exponent part of `parseFloat`: an optional sign and a nonempty digit
run that must end the string, scaling the mantissa. -/
def parseExpPart (mant : ℚ) (cs : List Char) : Option ℚ :=
  let (eneg, cs2) := stripSign cs
  let (ed, rest) := spanDigits cs2
  if ed.isEmpty || !rest.isEmpty then none
  else if eneg then some (mant / 10 ^ digitsVal ed)
  else some (mant * 10 ^ digitsVal ed)

/-- What may follow the mantissa: end of string, or an `e`/`E` exponent
part. -/
def parseFloatTail (mant : ℚ) (r2 : List Char) : Option ℚ :=
  match r2 with
  | [] => some mant
  | 'e' :: r3 => parseExpPart mant r3
  | 'E' :: r3 => parseExpPart mant r3
  | _ => none

/-- The unsigned part of `parseFloat`: integer digits, optional point and
fraction digits (at least one digit overall), optional exponent. -/
def floatCore (cs : List Char) : Option ℚ :=
  let (ip, r1) := spanDigits cs
  let (fp, r2) := splitFrac r1
  if ip.isEmpty && fp.isEmpty then none
  else
    let mant : ℚ := (digitsVal ip : ℚ) + (digitsVal fp : ℚ) / 10 ^ fp.length
    parseFloatTail mant r2

/-- Models Python `float(s)` on already-stripped input, over the decimal
literal forms `[+-]? digits [. digits]? ([eE] [+-]? digits)?` (at least
one digit before or after the point).  Exotic accepted spellings of the
Python builtin (`inf`, `nan`, digit-group underscores, non-ASCII digits)
are outside the modelled subset and map to `none`; no claim here depends
on them. -/
def parseFloat (s : String) : Option ℚ :=
  let (neg, cs) := stripSign s.toList
  (floatCore cs).map (fun v => if neg then -v else v)

/-- One iteration of the line loop of `analyze_sentiment`
(server.py lines 139-152): an `if / elif` chain on the four recognized
label starts, updating the matched field of the running result.  The
`try: float(...) except: 5.0` of the Python code is
`(parseFloat _).getD 5`; the `Stress Indicators` branch leaves the
running list untouched when the trailing text lower-cases to `"none"`. -/
def processLine (result : SentimentResult) (line : String) : SentimentResult :=
  if pyStartsWith line "Sentiment:" then
    { result with sentiment := pyLower (pyStrip (afterColon line)) }
  else if pyStartsWith line "Mood Score:" then
    { result with mood_score := (parseFloat (pyStrip (afterColon line))).getD 5 }
  else if pyStartsWith line "Insight:" then
    { result with insights := pyStrip (afterColon line) }
  else if pyStartsWith line "Stress Indicators:" then
    let indicators_text := pyStrip (afterColon line)
    if pyLower indicators_text ≠ "none" then
      { result with stress_indicators := [indicators_text] }
    else
      result
  else
    result

/-- The parsing phase of `analyze_sentiment` (server.py lines 131-154):
`response.strip().split("\n")`, then the line loop folded over the
running default. -/
def parseReply (response : String) : SentimentResult :=
  (pySplitLines (pyStrip response)).foldl processLine parseDefault

/-- `analyze_sentiment` (server.py lines 107-162) as a function of the
gateway outcome: a successful reply is parsed, any exception is absorbed
by the top-level handler which returns `exceptDefault`. -/
def analyze_sentiment (gateway : Except Unit String) : SentimentResult :=
  match gateway with
  | Except.ok response => parseReply response
  | Except.error _ => exceptDefault

/-- A stored mood check-in as read back by `get_user_stats`: the three
1-5 integer samples (server.py lines 75-82). -/
structure MoodCheckInRec where
  mood_level : ℤ
  stress_level : ℤ
  energy_level : ℤ
deriving DecidableEq

/-- `avg_mood` of `get_user_stats` (server.py line 283):
`sum(c["mood_level"] for c in recent_checkins) / len(recent_checkins)
if recent_checkins else 3.0`. -/
def avgMoodOf (recent_checkins : List MoodCheckInRec) : ℚ :=
  if recent_checkins.isEmpty then 3
  else ((recent_checkins.map (fun c => c.mood_level)).sum : ℚ) / recent_checkins.length

/-- `avg_stress` of `get_user_stats` (server.py line 284). -/
def avgStressOf (recent_checkins : List MoodCheckInRec) : ℚ :=
  if recent_checkins.isEmpty then 3
  else ((recent_checkins.map (fun c => c.stress_level)).sum : ℚ) / recent_checkins.length

/-- Round to the nearest integer, ties to the even integer: the rounding
rule of the Python builtin `round`. -/
def roundHalfEven (x : ℚ) : ℤ :=
  if x - ⌊x⌋ < 1/2 then ⌊x⌋
  else if x - ⌊x⌋ > 1/2 then ⌊x⌋ + 1
  else if ⌊x⌋ % 2 = 0 then ⌊x⌋ else ⌊x⌋ + 1

/-- Python `round(x, 1)` on the exact value: round `10 * x` half-to-even,
divide by 10. -/
def pythonRound1 (x : ℚ) : ℚ := (roundHalfEven (10 * x) : ℚ) / 10

/-- The response model of the stats endpoint (server.py lines 91-96). -/
structure UserStats where
  total_entries : ℤ
  avg_mood : ℚ
  avg_stress : ℚ
  recent_patterns : List String
  recommendations : List String
deriving DecidableEq

/-- `get_user_stats` (server.py lines 272-311) as a function of the two
store reads: the journal-entry count and the 10 most recent check-ins.
Recommendations: the stress pair and the mood pair are appended by two
independent `if`s, with the affirming string only when neither fired.
Patterns: the stress check is an independent `if`; the two mood checks
are an `if / elif` pair.  The threshold guards use the raw averages;
only the returned fields are rounded. -/
def get_user_stats (total_entries : ℤ) (recent_checkins : List MoodCheckInRec) : UserStats :=
  let avg_mood := avgMoodOf recent_checkins
  let avg_stress := avgStressOf recent_checkins
  let baseRecs : List String :=
    (if avg_stress > 7/2 then
      ["Consider taking regular breaks during study sessions",
       "Try deep breathing exercises when feeling overwhelmed"]
     else []) ++
    (if avg_mood < 5/2 then
      ["Engage in activities that bring you joy",
       "Consider reaching out to friends or counselors"]
     else [])
  let recommendations :=
    if baseRecs.isEmpty then ["Keep up the great work on your wellness journey!"]
    else baseRecs
  let recent_patterns : List String :=
    (if avg_stress > 7/2 then ["Elevated stress levels detected"] else []) ++
    (if avg_mood > 7/2 then ["Generally positive mood"]
     else if avg_mood < 5/2 then ["Lower mood levels - consider self-care"]
     else [])
  { total_entries := total_entries,
    avg_mood := pythonRound1 avg_mood,
    avg_stress := pythonRound1 avg_stress,
    recent_patterns := recent_patterns,
    recommendations := recommendations }

/-- Request body of the journal endpoint (server.py lines 55-59). -/
structure JournalEntryCreate where
  user_id : String
  content : String
  tags : List String
  privacy_level : String

/-- A persisted `JournalEntry` (server.py lines 44-53), identity and
timestamp elided; the three analysis-derived fields are nullable in the
Python model and filled in by `create_journal_entry`. -/
structure JournalEntryRec where
  user_id : String
  content : String
  mood_score : Option ℚ
  sentiment : Option String
  tags : List String
  ai_insights : Option String
  privacy_level : String
deriving DecidableEq

/-- The entry `create_journal_entry` builds from the request and the
analysis result (server.py lines 177-184): the three derived fields are
set from the analysis before the store insert. -/
def mkJournalEntry (entry : JournalEntryCreate) (analysis : SentimentResult) : JournalEntryRec :=
  { user_id := entry.user_id,
    content := entry.content,
    mood_score := some analysis.mood_score,
    sentiment := some analysis.sentiment,
    tags := entry.tags,
    ai_insights := some analysis.insights,
    privacy_level := entry.privacy_level }

/-- `create_journal_entry` (server.py lines 170-191): the record that the
handler inserts into `journal_entries` and returns. -/
def create_journal_entry (entry : JournalEntryCreate) (gateway : Except Unit String) : JournalEntryRec :=
  mkJournalEntry entry (analyze_sentiment gateway)

/-- Request body of the chat endpoint (server.py lines 70-73). -/
structure ChatRequest where
  user_id : String
  session_id : String
  message : String

/-- A persisted `ChatMessage` (server.py lines 61-68), identity and
timestamp elided.  The model has a nullable `sentiment` field and no
mood-score field at all. -/
structure ChatMessageRec where
  user_id : String
  session_id : String
  message : String
  response : String
  sentiment : Option String
deriving DecidableEq

/-- `chat_with_companion` (server.py lines 206-232): the record stored
into `chat_messages`, given the companion reply and the sentiment-gateway
outcome; only the sentiment label of the analysis is kept. -/
def chat_with_companion (req : ChatRequest) (companionReply : String)
    (gateway : Except Unit String) : ChatMessageRec :=
  { user_id := req.user_id,
    session_id := req.session_id,
    message := req.message,
    response := companionReply,
    sentiment := some (analyze_sentiment gateway).sentiment }

/-- The keys of the document `create_journal_entry` hands to
`insert_one` — the fields of the `JournalEntry` model, server.py
lines 44-53, in declaration order. -/
def journalEntryFields : List String :=
  ["id", "user_id", "content", "mood_score", "sentiment", "tags",
   "ai_insights", "privacy_level", "created_at"]

/-- The keys of the document `chat_with_companion` hands to
`insert_one` — the fields of the `ChatMessage` model, server.py
lines 61-68, in declaration order. -/
def chatMessageFields : List String :=
  ["id", "user_id", "session_id", "message", "response", "sentiment", "created_at"]

/-- Observable events of one `create_journal_entry` request, for the
ordering claim: completion of the sentiment analysis, and the store
insert. -/
inductive JournalEvent where
  | analyzeComplete (res : SentimentResult)
  | insertEntry (record : JournalEntryRec)
deriving DecidableEq

/-- The event trace of `create_journal_entry` (server.py lines 170-191):
the handler awaits `analyze_sentiment` first, then builds the entry from
the analysis and inserts it — `analyze_sentiment` absorbs every gateway
failure, so both events occur on every run reaching the insert. -/
def create_journal_entry_trace (entry : JournalEntryCreate)
    (gateway : Except Unit String) : List JournalEvent :=
  let analysis := analyze_sentiment gateway
  [JournalEvent.analyzeComplete analysis,
   JournalEvent.insertEntry (mkJournalEntry entry analysis)]

/-! Helper lemmas: concrete `parseFloat` values and invariance of the
line loop under non-matching lines. -/

/-- The empty digit run has value 0. -/
theorem digitsVal_nil : digitsVal [] = 0 := rfl

/-- `float("8.5")` is 17/2. -/
theorem parseFloat_eq_85 : parseFloat "8.5" = some (17/2) := by
  have h1 : stripSign "8.5".toList = (false, ['8', '.', '5']) := by decide
  have h2 : spanDigits ['8', '.', '5'] = (['8'], ['.', '5']) := by decide
  have h3 : splitFrac ['.', '5'] = (['5'], []) := by decide
  have h4 : digitsVal ['8'] = 8 := by decide
  have h5 : digitsVal ['5'] = 5 := by decide
  simp only [parseFloat, floatCore, h1, h2, h3, h4, h5]
  simp only [parseFloatTail]
  norm_num

/-- `float("15")` is 15. -/
theorem parseFloat_eq_15 : parseFloat "15" = some 15 := by
  have h1 : stripSign "15".toList = (false, ['1', '5']) := by decide
  have h2 : spanDigits ['1', '5'] = (['1', '5'], []) := by decide
  have h3 : splitFrac ([] : List Char) = ([], []) := by decide
  have h4 : digitsVal ['1', '5'] = 15 := by decide
  simp only [parseFloat, floatCore, h1, h2, h3, h4, digitsVal_nil]
  simp only [parseFloatTail]
  norm_num

/-- `float("9")` is 9. -/
theorem parseFloat_eq_9 : parseFloat "9" = some 9 := by
  have h1 : stripSign "9".toList = (false, ['9']) := by decide
  have h2 : spanDigits ['9'] = (['9'], []) := by decide
  have h3 : splitFrac ([] : List Char) = ([], []) := by decide
  have h4 : digitsVal ['9'] = 9 := by decide
  simp only [parseFloat, floatCore, h1, h2, h3, h4, digitsVal_nil]
  simp only [parseFloatTail]
  norm_num

/-- A line that does not start with `Mood Score:` leaves the running
mood score unchanged. -/
theorem processLine_mood_of_not (r : SentimentResult) (l : String)
    (h : pyStartsWith l "Mood Score:" = false) :
    (processLine r l).mood_score = r.mood_score := by
  simp only [processLine, h, Bool.false_eq_true, if_false]
  split_ifs <;> rfl

/-- Folding the line loop over lines none of which starts with
`Mood Score:` leaves the running mood score unchanged. -/
theorem foldl_mood_of_not (ls : List String) :
    ∀ r : SentimentResult, (∀ l ∈ ls, pyStartsWith l "Mood Score:" = false) →
      (ls.foldl processLine r).mood_score = r.mood_score := by
  induction ls with
  | nil => intro r _; rfl
  | cons a as ih =>
    intro r h
    rw [List.foldl_cons, ih _ (fun l hl => h l (List.mem_cons_of_mem a hl)),
      processLine_mood_of_not r a (h a (List.mem_cons_self a as))]

/-- A line that does not start with `Sentiment:` leaves the running
sentiment unchanged. -/
theorem processLine_sentiment_of_not (r : SentimentResult) (l : String)
    (h : pyStartsWith l "Sentiment:" = false) :
    (processLine r l).sentiment = r.sentiment := by
  simp only [processLine, h, Bool.false_eq_true, if_false]
  split_ifs <;> rfl

/-- Folding the line loop over lines none of which starts with
`Sentiment:` leaves the running sentiment unchanged. -/
theorem foldl_sentiment_of_not (ls : List String) :
    ∀ r : SentimentResult, (∀ l ∈ ls, pyStartsWith l "Sentiment:" = false) →
      (ls.foldl processLine r).sentiment = r.sentiment := by
  induction ls with
  | nil => intro r _; rfl
  | cons a as ih =>
    intro r h
    rw [List.foldl_cons, ih _ (fun l hl => h l (List.mem_cons_of_mem a hl)),
      processLine_sentiment_of_not r a (h a (List.mem_cons_self a as))]

/-- A line that does not start with `Insight:` leaves the running
insight unchanged. -/
theorem processLine_insights_of_not (r : SentimentResult) (l : String)
    (h : pyStartsWith l "Insight:" = false) :
    (processLine r l).insights = r.insights := by
  simp only [processLine, h, Bool.false_eq_true, if_false]
  split_ifs <;> rfl

/-- Folding the line loop over lines none of which starts with
`Insight:` leaves the running insight unchanged. -/
theorem foldl_insights_of_not (ls : List String) :
    ∀ r : SentimentResult, (∀ l ∈ ls, pyStartsWith l "Insight:" = false) →
      (ls.foldl processLine r).insights = r.insights := by
  induction ls with
  | nil => intro r _; rfl
  | cons a as ih =>
    intro r h
    rw [List.foldl_cons, ih _ (fun l hl => h l (List.mem_cons_of_mem a hl)),
      processLine_insights_of_not r a (h a (List.mem_cons_self a as))]

/-- A line that does not start with `Stress Indicators:`, or whose
stripped trailing text lower-cases to `"none"`, leaves the running
indicator list unchanged — the `"none"` branch of the code keeps the
current value rather than clearing it. -/
theorem processLine_stress_of_not (r : SentimentResult) (l : String)
    (h : pyStartsWith l "Stress Indicators:" = false ∨
      pyLower (pyStrip (afterColon l)) = "none") :
    (processLine r l).stress_indicators = r.stress_indicators := by
  rcases h with h | h
  · simp only [processLine, h, Bool.false_eq_true, if_false]
    split_ifs <;> rfl
  · simp only [processLine]
    split_ifs with c1 c2 c3 c4 c5 <;> first | rfl | exact absurd h c5

/-- Folding the line loop over lines each of which either does not start
with `Stress Indicators:` or carries trailing text lower-casing to
`"none"` leaves the running indicator list unchanged. -/
theorem foldl_stress_of_not (ls : List String) :
    ∀ r : SentimentResult,
      (∀ l ∈ ls, pyStartsWith l "Stress Indicators:" = false ∨
        pyLower (pyStrip (afterColon l)) = "none") →
      (ls.foldl processLine r).stress_indicators = r.stress_indicators := by
  induction ls with
  | nil => intro r _; rfl
  | cons a as ih =>
    intro r h
    rw [List.foldl_cons, ih _ (fun l hl => h l (List.mem_cons_of_mem a hl)),
      processLine_stress_of_not r a (h a (List.mem_cons_self a as))]

/-- A line matching none of the four recognized labels is ignored by the
line loop. -/
theorem processLine_of_unrecognized (r : SentimentResult) (l : String)
    (h0 : pyStartsWith l "Sentiment:" = false)
    (h1 : pyStartsWith l "Mood Score:" = false)
    (h2 : pyStartsWith l "Insight:" = false)
    (h3 : pyStartsWith l "Stress Indicators:" = false) :
    processLine r l = r := by
  simp only [processLine, h0, h1, h2, h3, Bool.false_eq_true, if_false]

/-- Folding the line loop over lines matching none of the recognized
labels changes nothing. -/
theorem foldl_of_unrecognized (ls : List String) :
    ∀ r : SentimentResult,
      (∀ l ∈ ls, pyStartsWith l "Sentiment:" = false ∧
        pyStartsWith l "Mood Score:" = false ∧
        pyStartsWith l "Insight:" = false ∧
        pyStartsWith l "Stress Indicators:" = false) →
      ls.foldl processLine r = r := by
  induction ls with
  | nil => intro r _; rfl
  | cons a as ih =>
    intro r h
    have ha := h a (List.mem_cons_self a as)
    rw [List.foldl_cons, processLine_of_unrecognized r a ha.1 ha.2.1 ha.2.2.1 ha.2.2.2,
      ih _ (fun l hl => h l (List.mem_cons_of_mem a hl))]

/-- `round(3.0, 1)` is 3.0. -/
theorem pythonRound1_three : pythonRound1 3 = 3 := by
  norm_num [pythonRound1, roundHalfEven]

/-! The claims. -/

/-- Claim C1, counterexample: at avgStress = 4.0 and avgMood = 2.0 (one
check-in with mood 2, stress 4) the patterns list has BOTH the stress
string and the lower-mood string — it is not the singleton the claim
states, because in the code the stress check is an independent `if`,
not part of the mood `if / elif` pair. -/
theorem C1_counterexample :
    (get_user_stats 0 [⟨2, 4, 3⟩]).recent_patterns =
      ["Elevated stress levels detected", "Lower mood levels - consider self-care"] ∧
    (get_user_stats 0 [⟨2, 4, 3⟩]).recent_patterns ≠ ["Elevated stress levels detected"] := by
  have hm : avgMoodOf [⟨2, 4, 3⟩] = 2 := by norm_num [avgMoodOf]
  have hs : avgStressOf [⟨2, 4, 3⟩] = 4 := by norm_num [avgStressOf]
  constructor
  · norm_num [get_user_stats, hm, hs]
  · norm_num [get_user_stats, hm, hs]

/-- Claim C1, amended: with avgStress = 4.0 and avgMood = 2.0 the
recommendations are all four stress+mood strings in fixed order and the
patterns are [stress string, lower-mood string] — the stress pattern
does not suppress the mood patterns; only the two mood checks are
mutually exclusive with each other.  With avgStress ≤ 3.5 and
avgMood = 2.0 the patterns are exactly the lower-mood string. -/
theorem C1_amended (total_entries : ℤ) (recent_checkins : List MoodCheckInRec)
    (hm : avgMoodOf recent_checkins = 2) :
    (avgStressOf recent_checkins = 4 →
      (get_user_stats total_entries recent_checkins).recommendations =
        ["Consider taking regular breaks during study sessions",
         "Try deep breathing exercises when feeling overwhelmed",
         "Engage in activities that bring you joy",
         "Consider reaching out to friends or counselors"] ∧
      (get_user_stats total_entries recent_checkins).recent_patterns =
        ["Elevated stress levels detected", "Lower mood levels - consider self-care"]) ∧
    (avgStressOf recent_checkins ≤ 7/2 →
      (get_user_stats total_entries recent_checkins).recent_patterns =
        ["Lower mood levels - consider self-care"]) := by
  constructor
  · intro hs
    norm_num [get_user_stats, hm, hs]
  · intro hs
    have hns : ¬ (avgStressOf recent_checkins > 7/2) := not_lt.mpr (le_trans hs (by norm_num))
    norm_num [get_user_stats, hm, hns]

/-- Claim C1, witness: both scenarios of the amended claim at concrete
check-in lists (mood 2 / stress 4, and mood 2 / stress 3). -/
theorem C1_witness :
    ((get_user_stats 0 [⟨2, 4, 3⟩]).recommendations =
        ["Consider taking regular breaks during study sessions",
         "Try deep breathing exercises when feeling overwhelmed",
         "Engage in activities that bring you joy",
         "Consider reaching out to friends or counselors"] ∧
      (get_user_stats 0 [⟨2, 4, 3⟩]).recent_patterns =
        ["Elevated stress levels detected", "Lower mood levels - consider self-care"]) ∧
    (get_user_stats 0 [⟨2, 3, 3⟩]).recent_patterns = ["Lower mood levels - consider self-care"] :=
  ⟨(C1_amended 0 [⟨2, 4, 3⟩] (by norm_num [avgMoodOf])).1 (by norm_num [avgStressOf]),
   (C1_amended 0 [⟨2, 3, 3⟩] (by norm_num [avgMoodOf])).2 (by norm_num [avgStressOf])⟩

/-- Claim C2, counterexample: the persisted JournalEntry document has a
mood-score field, but the persisted ChatMessage document has no
mood-score field at all, so a stored chat turn cannot carry a non-null
mood score. -/
theorem C2_counterexample :
    "mood_score" ∈ journalEntryFields ∧ "mood_score" ∉ chatMessageFields := by
  decide

/-- Claim C2, amended: every persisted JournalEntry carries a non-null
sentiment label, mood score and insight, and every persisted ChatTurn
carries a non-null sentiment label (its record has no mood-score field),
for every gateway outcome — the extractor degrades to defaults instead
of propagating failures. -/
theorem C2_amended (entry : JournalEntryCreate) (req : ChatRequest)
    (companionReply : String) (g1 g2 : Except Unit String) :
    (create_journal_entry entry g1).sentiment ≠ none ∧
    (create_journal_entry entry g1).mood_score ≠ none ∧
    (create_journal_entry entry g1).ai_insights ≠ none ∧
    (chat_with_companion req companionReply g2).sentiment ≠ none := by
  simp [create_journal_entry, mkJournalEntry, chat_with_companion]

/-- Claim C2, witness: the amended claim at a concrete request with a
failing sentiment gateway on the journal side and a succeeding one on
the chat side. -/
theorem C2_witness :
    (create_journal_entry ⟨"u1", "rough week", [], "private"⟩ (Except.error ())).sentiment ≠ none ∧
    (create_journal_entry ⟨"u1", "rough week", [], "private"⟩ (Except.error ())).mood_score ≠ none ∧
    (create_journal_entry ⟨"u1", "rough week", [], "private"⟩ (Except.error ())).ai_insights ≠ none ∧
    (chat_with_companion ⟨"u1", "s1", "hi"⟩ "hello" (Except.ok "Sentiment: positive")).sentiment ≠ none :=
  C2_amended ⟨"u1", "rough week", [], "private"⟩ ⟨"u1", "s1", "hi"⟩ "hello"
    (Except.error ()) (Except.ok "Sentiment: positive")

/-- Claim C3, counterexample: the result returned on a gateway exception
is NOT the same tuple as the one returned for an empty reply — the two
differ in the insight text (the other three fields agree). -/
theorem C3_counterexample :
    (analyze_sentiment (Except.error ())).insights ≠ (analyze_sentiment (Except.ok "")).insights ∧
    analyze_sentiment (Except.error ()) ≠ analyze_sentiment (Except.ok "") ∧
    (analyze_sentiment (Except.error ())).sentiment = (analyze_sentiment (Except.ok "")).sentiment ∧
    (analyze_sentiment (Except.error ())).mood_score = (analyze_sentiment (Except.ok "")).mood_score ∧
    (analyze_sentiment (Except.error ())).stress_indicators = (analyze_sentiment (Except.ok "")).stress_indicators := by
  have hok : analyze_sentiment (Except.ok "") = parseDefault := by
    show parseReply "" = parseDefault
    have he : pySplitLines (pyStrip "") = [""] := by decide
    rw [parseReply, he, List.foldl_cons, List.foldl_nil,
      processLine_of_unrecognized _ _ (by decide) (by decide) (by decide) (by decide)]
  have herr : analyze_sentiment (Except.error ()) = exceptDefault := rfl
  rw [hok, herr]
  exact ⟨by decide, fun hc => absurd (congrArg SentimentResult.insights hc) (by decide),
    rfl, rfl, rfl⟩

/-- Claim C3, amended: `analyze` is total; a reply none of whose lines
starts with a recognized label yields the parse-phase default, and any
exception yields the fixed exception default; the two defaults agree on
sentiment ("neutral"), mood score (5.0) and stress indicators ([]) but
differ in the insight text. -/
theorem C3_amended (response : String)
    (h : ∀ l ∈ pySplitLines (pyStrip response),
        pyStartsWith l "Sentiment:" = false ∧ pyStartsWith l "Mood Score:" = false ∧
        pyStartsWith l "Insight:" = false ∧ pyStartsWith l "Stress Indicators:" = false) :
    analyze_sentiment (Except.ok response) = parseDefault ∧
    analyze_sentiment (Except.error ()) = exceptDefault ∧
    exceptDefault.sentiment = parseDefault.sentiment ∧
    exceptDefault.mood_score = parseDefault.mood_score ∧
    exceptDefault.stress_indicators = parseDefault.stress_indicators ∧
    exceptDefault.insights ≠ parseDefault.insights := by
  refine ⟨?_, rfl, rfl, rfl, rfl, by decide⟩
  show parseReply response = parseDefault
  rw [parseReply, foldl_of_unrecognized _ _ h]

/-- Claim C3, witness: the amended claim at the empty reply. -/
theorem C3_witness :
    analyze_sentiment (Except.ok "") = parseDefault ∧
    analyze_sentiment (Except.error ()) = exceptDefault ∧
    exceptDefault.sentiment = parseDefault.sentiment ∧
    exceptDefault.mood_score = parseDefault.mood_score ∧
    exceptDefault.stress_indicators = parseDefault.stress_indicators ∧
    exceptDefault.insights ≠ parseDefault.insights :=
  C3_amended "" (by decide)

/-- Claim C4, counterexample: the reply `Mood Score: 15` parses as the
number 15, and `analyze` returns mood score 15, which is not in [1,10]
— the parser performs no clamping. -/
theorem C4_counterexample :
    parseFloat "15" = some 15 ∧
    (analyze_sentiment (Except.ok "Mood Score: 15")).mood_score = 15 ∧
    ¬ ((analyze_sentiment (Except.ok "Mood Score: 15")).mood_score ≤ 10) := by
  have hl : pySplitLines (pyStrip "Mood Score: 15") = ["Mood Score: 15"] := by decide
  have h0 : pyStartsWith "Mood Score: 15" "Sentiment:" = false := by decide
  have h1 : pyStartsWith "Mood Score: 15" "Mood Score:" = true := by decide
  have ha : pyStrip (afterColon "Mood Score: 15") = "15" := by decide
  have hmood : (analyze_sentiment (Except.ok "Mood Score: 15")).mood_score = 15 := by
    show (parseReply "Mood Score: 15").mood_score = 15
    rw [parseReply, hl]
    simp [processLine, h0, h1, ha, parseFloat_eq_15]
  refine ⟨parseFloat_eq_15, hmood, ?_⟩
  rw [hmood]
  norm_num

/-- Claim C4, amended: when the Mood Score line's trailing text parses
as a number, that number is stored as-is with no clamping — the
resulting mood score equals the parsed value, whether or not it lies in
[1,10]. -/
theorem C4_amended (r : SentimentResult) (l : String) (x : ℚ)
    (h0 : pyStartsWith l "Sentiment:" = false)
    (h1 : pyStartsWith l "Mood Score:" = true)
    (hp : parseFloat (pyStrip (afterColon l)) = some x) :
    (processLine r l).mood_score = x := by
  simp [processLine, h0, h1, hp]

/-- Claim C4, witness: the amended claim at the out-of-range line
`Mood Score: 15`. -/
theorem C4_witness : (processLine parseDefault "Mood Score: 15").mood_score = 15 :=
  C4_amended parseDefault "Mood Score: 15" 15 (by decide) (by decide)
    (by rw [(by decide : pyStrip (afterColon "Mood Score: 15") = "15"), parseFloat_eq_15])

/-- Claim C5, counterexample: mood samples [3,3,3,4] average exactly
3.25, and `get_user_stats` reports 3.2 — Python `round` sends the half
to the even tenth, not away from zero as the claim states. -/
theorem C5_counterexample :
    (get_user_stats 0 [⟨3, 3, 3⟩, ⟨3, 3, 3⟩, ⟨3, 3, 3⟩, ⟨4, 3, 3⟩]).avg_mood = 16/5 ∧
    (get_user_stats 0 [⟨3, 3, 3⟩, ⟨3, 3, 3⟩, ⟨3, 3, 3⟩, ⟨4, 3, 3⟩]).avg_mood ≠ 33/10 := by
  have hm : avgMoodOf [⟨3, 3, 3⟩, ⟨3, 3, 3⟩, ⟨3, 3, 3⟩, ⟨4, 3, 3⟩] = 13/4 := by
    norm_num [avgMoodOf]
  have hr : pythonRound1 (13/4) = 16/5 := by
    norm_num [pythonRound1, roundHalfEven]
  constructor
  · simp [get_user_stats, hm, hr]
  · simp [get_user_stats, hm, hr]
    norm_num

/-- Claim C5, amended: averages are rounded to one decimal place with
round-half-to-even (the Python `round` rule): samples [3,4,4] average
3.666… and round to 3.7; samples [3,3,3,4] average 3.25 and round to
3.2; in general an exact half rounds to the even tenth — unchanged for
an even tenths digit, up for an odd one. -/
theorem C5_amended :
    (get_user_stats 0 [⟨3, 3, 3⟩, ⟨4, 3, 3⟩, ⟨4, 3, 3⟩]).avg_mood = 37/10 ∧
    (get_user_stats 0 [⟨3, 3, 3⟩, ⟨3, 3, 3⟩, ⟨3, 3, 3⟩, ⟨4, 3, 3⟩]).avg_mood = 16/5 ∧
    (∀ k : ℤ, pythonRound1 (((2 * k : ℤ) : ℚ) / 10 + 1 / 20) = ((2 * k : ℤ) : ℚ) / 10) ∧
    (∀ k : ℤ, pythonRound1 (((2 * k + 1 : ℤ) : ℚ) / 10 + 1 / 20) = ((2 * k + 2 : ℤ) : ℚ) / 10) := by
  refine ⟨?_, ?_, ?_, ?_⟩
  · have hm : avgMoodOf [⟨3, 3, 3⟩, ⟨4, 3, 3⟩, ⟨4, 3, 3⟩] = 11/3 := by
      norm_num [avgMoodOf]
    have hr : pythonRound1 (11/3) = 37/10 := by
      norm_num [pythonRound1, roundHalfEven]
    simp [get_user_stats, hm, hr]
  · have hm : avgMoodOf [⟨3, 3, 3⟩, ⟨3, 3, 3⟩, ⟨3, 3, 3⟩, ⟨4, 3, 3⟩] = 13/4 := by
      norm_num [avgMoodOf]
    have hr : pythonRound1 (13/4) = 16/5 := by
      norm_num [pythonRound1, roundHalfEven]
    simp [get_user_stats, hm, hr]
  · intro k
    have h10 : (10 : ℚ) * (((2 * k : ℤ) : ℚ) / 10 + 1 / 20) = ((2 * k : ℤ) : ℚ) + 1 / 2 := by
      ring
    have hf : ⌊((2 * k : ℤ) : ℚ) + 1 / 2⌋ = 2 * k := by
      rw [add_comm, Int.floor_add_int]
      norm_num
    have hmod : (2 * k) % 2 = 0 := by omega
    rw [pythonRound1, h10, roundHalfEven, hf]
    norm_num [hmod]
  · intro k
    have h10 : (10 : ℚ) * (((2 * k + 1 : ℤ) : ℚ) / 10 + 1 / 20) = ((2 * k + 1 : ℤ) : ℚ) + 1 / 2 := by
      ring
    have hf : ⌊((2 * k + 1 : ℤ) : ℚ) + 1 / 2⌋ = 2 * k + 1 := by
      rw [add_comm, Int.floor_add_int]
      norm_num
    have hmod : ¬ ((2 * k + 1) % 2 = 0) := by omega
    rw [pythonRound1, h10, roundHalfEven, hf]
    norm_num [hmod]
    ring

/-- Claim C6: a reply line `Stress Indicators: <t>` whose stripped
trailing text lower-cases to `"none"` leaves the indicator list empty,
and any other non-empty trailing text yields the single-element list
containing exactly that text. -/
theorem C6_stress_indicator_line (r : SentimentResult) (l t : String)
    (h0 : pyStartsWith l "Sentiment:" = false)
    (h1 : pyStartsWith l "Mood Score:" = false)
    (h2 : pyStartsWith l "Insight:" = false)
    (h3 : pyStartsWith l "Stress Indicators:" = true)
    (ht : pyStrip (afterColon l) = t) :
    (pyLower t = "none" → (processLine parseDefault l).stress_indicators = []) ∧
    (pyLower t ≠ "none" → t ≠ "" → (processLine r l).stress_indicators = [t]) := by
  constructor
  · intro hn
    simp [processLine, h0, h1, h2, h3, ht, hn, parseDefault]
  · intro hn _
    simp [processLine, h0, h1, h2, h3, ht, hn]

/-- Claim C6, witness: `Stress Indicators: NoNe` keeps the list empty;
`Stress Indicators: exam pressure` yields ["exam pressure"]. -/
theorem C6_witness :
    (processLine parseDefault "Stress Indicators: NoNe").stress_indicators = [] ∧
    (processLine parseDefault "Stress Indicators: exam pressure").stress_indicators = ["exam pressure"] :=
  ⟨(C6_stress_indicator_line parseDefault "Stress Indicators: NoNe" "NoNe"
      (by decide) (by decide) (by decide) (by decide) (by decide)).1 (by decide),
   (C6_stress_indicator_line parseDefault "Stress Indicators: exam pressure" "exam pressure"
      (by decide) (by decide) (by decide) (by decide) (by decide)).2 (by decide) (by decide)⟩

/-- Claim C7: a reply containing only the line `Mood Score: 8.5` yields
sentiment "neutral", mood score 8.5, the default insight and an empty
indicator list — parsing is line-independent, each unrecognized field
staying at its default. -/
theorem C7_single_mood_line :
    analyze_sentiment (Except.ok "Mood Score: 8.5") =
      { sentiment := "neutral", mood_score := 17/2,
        insights := "Take care of yourself and remember that it\x27s okay to have ups and downs.",
        stress_indicators := [] } := by
  have hl : pySplitLines (pyStrip "Mood Score: 8.5") = ["Mood Score: 8.5"] := by decide
  have h0 : pyStartsWith "Mood Score: 8.5" "Sentiment:" = false := by decide
  have h1 : pyStartsWith "Mood Score: 8.5" "Mood Score:" = true := by decide
  have ha : pyStrip (afterColon "Mood Score: 8.5") = "8.5" := by decide
  show parseReply "Mood Score: 8.5" = _
  rw [parseReply, hl]
  simp [processLine, h0, h1, ha, parseFloat_eq_85, parseDefault]

/-- Claim C8: with zero mood check-ins for the owner, `get_user_stats`
returns average mood 3.0, average stress 3.0, exactly the single
affirming recommendation, and an empty pattern list, whatever the
journal-entry count. -/
theorem C8_zero_checkins (total_entries : ℤ) :
    get_user_stats total_entries [] =
      { total_entries := total_entries, avg_mood := 3, avg_stress := 3,
        recent_patterns := [],
        recommendations := ["Keep up the great work on your wellness journey!"] } := by
  simp [get_user_stats, avgMoodOf, avgStressOf, pythonRound1_three]
  norm_num

/-- Claim C8, witness: the zero-check-in stats at entry count 7. -/
theorem C8_witness :
    get_user_stats 7 [] =
      { total_entries := 7, avg_mood := 3, avg_stress := 3,
        recent_patterns := [],
        recommendations := ["Keep up the great work on your wellness journey!"] } :=
  C8_zero_checkins 7

/-- Claim C9: in the event trace of `create_journal_entry`, any store
insert is preceded by the completion of the sentiment analysis, and the
inserted record is built from that analysis result — no write happens
before analysis completes. -/
theorem C9_insert_only_after_analysis (entry : JournalEntryCreate)
    (gateway : Except Unit String) (i : ℕ) (record : JournalEntryRec)
    (h : (create_journal_entry_trace entry gateway)[i]? = some (JournalEvent.insertEntry record)) :
    ∃ j, j < i ∧
      (create_journal_entry_trace entry gateway)[j]? =
        some (JournalEvent.analyzeComplete (analyze_sentiment gateway)) ∧
      record = mkJournalEntry entry (analyze_sentiment gateway) := by
  match i with
  | 0 => simp [create_journal_entry_trace] at h
  | 1 =>
    refine ⟨0, by omega, rfl, ?_⟩
    simp [create_journal_entry_trace] at h
    exact h.symm
  | (n+2) => simp [create_journal_entry_trace] at h

/-- Claim C9, witness: the insert event of a concrete request (with a
failing gateway) sits at index 1, after the analysis completion at
index 0. -/
theorem C9_witness :
    ∃ j, j < 1 ∧
      (create_journal_entry_trace ⟨"u1", "hello", [], "private"⟩ (Except.error ()))[j]? =
        some (JournalEvent.analyzeComplete (analyze_sentiment (Except.error ()))) ∧
      mkJournalEntry ⟨"u1", "hello", [], "private"⟩ (analyze_sentiment (Except.error ())) =
        mkJournalEntry ⟨"u1", "hello", [], "private"⟩ (analyze_sentiment (Except.error ())) :=
  C9_insert_only_after_analysis ⟨"u1", "hello", [], "private"⟩ (Except.error ()) 1
    (mkJournalEntry ⟨"u1", "hello", [], "private"⟩ (analyze_sentiment (Except.error ()))) rfl

/-- Claim C10, counterexample: the reply `Stress Indicators: exam
pressure` / `Stress Indicators: None` keeps the indicator list
["exam pressure"] — the later matching line does NOT overwrite the
earlier value, because the `"none"` branch of the code leaves the
running list untouched instead of clearing it.  So for the
`Stress Indicators:` prefix the last matching line does not always
win. -/
theorem C10_counterexample :
    (analyze_sentiment
      (Except.ok "Stress Indicators: exam pressure\nStress Indicators: None")).stress_indicators =
      ["exam pressure"] ∧
    (analyze_sentiment
      (Except.ok "Stress Indicators: exam pressure\nStress Indicators: None")).stress_indicators ≠
      [] := by
  have hl : pySplitLines (pyStrip "Stress Indicators: exam pressure\nStress Indicators: None") =
      ["Stress Indicators: exam pressure", "Stress Indicators: None"] := by decide
  have step1 : processLine parseDefault "Stress Indicators: exam pressure" =
      { parseDefault with stress_indicators := ["exam pressure"] } := by
    have c1 : pyStartsWith "Stress Indicators: exam pressure" "Sentiment:" = false := by decide
    have c2 : pyStartsWith "Stress Indicators: exam pressure" "Mood Score:" = false := by decide
    have c3 : pyStartsWith "Stress Indicators: exam pressure" "Insight:" = false := by decide
    have c4 : pyStartsWith "Stress Indicators: exam pressure" "Stress Indicators:" = true := by decide
    have ht : pyStrip (afterColon "Stress Indicators: exam pressure") = "exam pressure" := by decide
    have hn : pyLower "exam pressure" ≠ "none" := by decide
    simp [processLine, c1, c2, c3, c4, ht, hn]
  have step2 : ∀ r : SentimentResult, processLine r "Stress Indicators: None" = r := by
    intro r
    have c1 : pyStartsWith "Stress Indicators: None" "Sentiment:" = false := by decide
    have c2 : pyStartsWith "Stress Indicators: None" "Mood Score:" = false := by decide
    have c3 : pyStartsWith "Stress Indicators: None" "Insight:" = false := by decide
    have c4 : pyStartsWith "Stress Indicators: None" "Stress Indicators:" = true := by decide
    have hnn : pyLower (pyStrip (afterColon "Stress Indicators: None")) = "none" := by decide
    simp [processLine, c1, c2, c3, c4, hnn]
  constructor
  · show (parseReply _).stress_indicators = _
    rw [parseReply, hl, List.foldl_cons, List.foldl_cons, List.foldl_nil, step1, step2]
  · show (parseReply _).stress_indicators ≠ _
    rw [parseReply, hl, List.foldl_cons, List.foldl_cons, List.foldl_nil, step1, step2]
    simp

/-- Claim C10, amended: a later line with the same recognized prefix
overwrites the earlier value for `Sentiment:`, `Mood Score:` (parse
failure resetting to 5.0) and `Insight:` lines, and for a
`Stress Indicators:` line whose stripped trailing text does not
lower-case to `"none"`; but a `Stress Indicators:` line whose text
lower-cases to `"none"` leaves the running value in place, so it never
overwrites an earlier indicator value. -/
theorem C10_amended :
    (∀ (response : String) (pre post : List String) (l : String),
      pySplitLines (pyStrip response) = pre ++ l :: post →
      pyStartsWith l "Sentiment:" = true →
      (∀ l2 ∈ post, pyStartsWith l2 "Sentiment:" = false) →
      (analyze_sentiment (Except.ok response)).sentiment =
        pyLower (pyStrip (afterColon l))) ∧
    (∀ (response : String) (pre post : List String) (l : String),
      pySplitLines (pyStrip response) = pre ++ l :: post →
      pyStartsWith l "Sentiment:" = false →
      pyStartsWith l "Mood Score:" = true →
      (∀ l2 ∈ post, pyStartsWith l2 "Mood Score:" = false) →
      (analyze_sentiment (Except.ok response)).mood_score =
        (parseFloat (pyStrip (afterColon l))).getD 5) ∧
    (∀ (response : String) (pre post : List String) (l : String),
      pySplitLines (pyStrip response) = pre ++ l :: post →
      pyStartsWith l "Sentiment:" = false →
      pyStartsWith l "Mood Score:" = false →
      pyStartsWith l "Insight:" = true →
      (∀ l2 ∈ post, pyStartsWith l2 "Insight:" = false) →
      (analyze_sentiment (Except.ok response)).insights =
        pyStrip (afterColon l)) ∧
    (∀ (response : String) (pre post : List String) (l : String),
      pySplitLines (pyStrip response) = pre ++ l :: post →
      pyStartsWith l "Sentiment:" = false →
      pyStartsWith l "Mood Score:" = false →
      pyStartsWith l "Insight:" = false →
      pyStartsWith l "Stress Indicators:" = true →
      pyLower (pyStrip (afterColon l)) ≠ "none" →
      (∀ l2 ∈ post, pyStartsWith l2 "Stress Indicators:" = false ∨
        pyLower (pyStrip (afterColon l2)) = "none") →
      (analyze_sentiment (Except.ok response)).stress_indicators =
        [pyStrip (afterColon l)]) ∧
    (∀ (r : SentimentResult) (l : String),
      pyStartsWith l "Sentiment:" = false →
      pyStartsWith l "Mood Score:" = false →
      pyStartsWith l "Insight:" = false →
      pyStartsWith l "Stress Indicators:" = true →
      pyLower (pyStrip (afterColon l)) = "none" →
      processLine r l = r) := by
  refine ⟨?_, ?_, ?_, ?_, ?_⟩
  · intro response pre post l hsplit h1 hpost
    show (parseReply response).sentiment = _
    rw [parseReply, hsplit, List.foldl_append, List.foldl_cons,
      foldl_sentiment_of_not post _ hpost]
    simp [processLine, h1]
  · intro response pre post l hsplit h0 h1 hpost
    show (parseReply response).mood_score = _
    rw [parseReply, hsplit, List.foldl_append, List.foldl_cons,
      foldl_mood_of_not post _ hpost]
    simp [processLine, h0, h1]
  · intro response pre post l hsplit h0 h1 h2 hpost
    show (parseReply response).insights = _
    rw [parseReply, hsplit, List.foldl_append, List.foldl_cons,
      foldl_insights_of_not post _ hpost]
    simp [processLine, h0, h1, h2]
  · intro response pre post l hsplit h0 h1 h2 h3 hn hpost
    show (parseReply response).stress_indicators = _
    rw [parseReply, hsplit, List.foldl_append, List.foldl_cons,
      foldl_stress_of_not post _ hpost]
    simp [processLine, h0, h1, h2, h3, hn]
  · intro r l h0 h1 h2 h3 hnn
    simp [processLine, h0, h1, h2, h3, hnn]

/-- Claim C10, witness: one concrete duplicate-line reply per prefix —
the later Sentiment, Mood Score, Insight and non-none Stress Indicators
line wins, and a `Stress Indicators: NONE` line changes nothing. -/
theorem C10_witness :
    (analyze_sentiment (Except.ok "Sentiment: Good\nSentiment: MIXED")).sentiment = "mixed" ∧
    (analyze_sentiment (Except.ok "Mood Score: 2\nMood Score: 9")).mood_score = 9 ∧
    (analyze_sentiment (Except.ok "Insight: a\nInsight: rest well")).insights = "rest well" ∧
    (analyze_sentiment
      (Except.ok "Stress Indicators: deadlines\nStress Indicators: exams")).stress_indicators =
      ["exams"] ∧
    processLine parseDefault "Stress Indicators: NONE" = parseDefault :=
  ⟨(C10_amended.1 "Sentiment: Good\nSentiment: MIXED" ["Sentiment: Good"] [] "Sentiment: MIXED"
      (by decide) (by decide) (by simp)).trans (by decide),
   (C10_amended.2.1 "Mood Score: 2\nMood Score: 9" ["Mood Score: 2"] [] "Mood Score: 9"
      (by decide) (by decide) (by decide) (by simp)).trans
      (by rw [(by decide : pyStrip (afterColon "Mood Score: 9") = "9"), parseFloat_eq_9]; rfl),
   (C10_amended.2.2.1 "Insight: a\nInsight: rest well" ["Insight: a"] [] "Insight: rest well"
      (by decide) (by decide) (by decide) (by decide) (by simp)).trans (by decide),
   (C10_amended.2.2.2.1 "Stress Indicators: deadlines\nStress Indicators: exams"
      ["Stress Indicators: deadlines"] [] "Stress Indicators: exams"
      (by decide) (by decide) (by decide) (by decide) (by decide) (by decide) (by simp)).trans
      (by decide),
   C10_amended.2.2.2.2 parseDefault "Stress Indicators: NONE"
      (by decide) (by decide) (by decide) (by decide) (by decide)⟩

end Serenity
